import Mathlib

/-!
A shallow embedding of `src/huntlib/qradar.py` (class `QRadar`), the single
source file of the huntlib repository, together with theorems checking the
specification against it.

HTTP interactions are modelled by passing the backend responses in as
explicit data: a stream `Nat → _` giving the response to the n-th request a
given endpoint would receive.  Wall-clock time is idealised so that each
`time.sleep(5)` advances the clock by exactly 5 seconds while the requests
themselves take no time.  Raised exceptions are modelled by `Except` with an
error type whose constructors name the distinct raise sites after the
specification taxonomy.
-/

namespace Huntlib

/-- The distinct failure modes of `qradar.py`, named after the specification
error taxonomy.  Each constructor corresponds to one failure site in the
code: `ConfigError` is the `raise` in `__init__` when no credentials are
supplied, `SubmissionFailed` the `raise` in `_start_search`, `JobFailed` and
`JobTimedOut` the two `raise` statements of the poll loop in `search`,
`FetchFailed` the `raise` in `_get_results`, and `MalformedResponse` models
the uncaught `IndexError` that `list(resp.json().values())[0]` raises in
`_get_results` on an empty envelope. -/
inductive QError where
  | ConfigError
  | SubmissionFailed
  | JobFailed (status : String)
  | JobTimedOut
  | FetchFailed
  | MalformedResponse
  deriving Repr, DecidableEq

/-- A result row: a mapping from field name to (integer) value, as in the
specification examples. -/
abbrev Row := List (String × Int)

/-- The backend response envelope: an insertion-ordered mapping from a
variably-named key to a row list.  Python dicts preserve insertion order, so
`list(d.values())[0]` is the value of the first inserted key. -/
abbrev Envelope := List (String × List Row)

/-- The final expression of `QRadar._get_results`:
`list(resp.json().values())[0]`, taking the first value of the envelope.  On
an empty envelope the Python expression raises `IndexError`; that failure is
the `MalformedResponse` of the specification taxonomy. -/
def materialize (env : Envelope) : Except QError (List Row) :=
  match env with
  | [] => .error .MalformedResponse
  | (_, rows) :: _ => .ok rows

/-- One response of the results endpoint
(`GET /api/ariel/searches/<id>/results`): HTTP status and JSON body. -/
structure FetchResp where
  status : Nat
  body : Envelope

/-- `QRadar._get_results`: issue a request (the response to the request made
with counter value `attempt` is `responses attempt`); on a status other than
200, `time.sleep(5)` and retry with `attempt + 1` while `attempt <= 10`,
otherwise raise `FetchFailed`; on status 200, return the first value of the
JSON body.  The initial call has `attempt = 0`.  The result is paired with
the total number of requests issued. -/
def getResults (responses : Nat → FetchResp) (attempt : Nat) :
    Except QError (List Row) × Nat :=
  let resp := responses attempt
  if resp.status ≠ 200 then
    if h : attempt ≤ 10 then
      let r := getResults responses (attempt + 1)
      (r.1, r.2 + 1)
    else
      (.error .FetchFailed, 1)
  else
    (materialize resp.body, 1)
termination_by 11 - attempt
decreasing_by omega

/-- One response of the submission endpoint (`POST /api/ariel/searches`):
HTTP status and the `search_id` field of the JSON body (`.get` returns
`None` when the field is absent). -/
structure PostResp where
  status : Nat
  searchId : Option String

/-- `QRadar._start_search`: issue one POST; a status other than 201 raises
`SubmissionFailed`, a 201 returns the `search_id` field of the body.  The
result is paired with the number of requests issued, which is always 1: the
function is not recursive and performs no retry. -/
def startSearch (responses : Nat → PostResp) :
    Except QError (Option String) × Nat :=
  let resp := responses 0
  if resp.status ≠ 201 then (.error .SubmissionFailed, 1)
  else (.ok resp.searchId, 1)

/-- Python truthiness of an optional string argument: `None` and the empty
string are falsy, any other string is truthy. -/
def truthy : Option String → Bool
  | none => false
  | some s => !s.isEmpty

/-- Header construction in `QRadar.__init__`: start from the `Accept`
header; when `username and password` is truthy add the basic `username` and
`password` headers, `elif token` add the `SEC` header, else
`raise Exception` (the `ConfigError` of the specification taxonomy).  No
network request is involved. -/
def mkHeaders (username password token : Option String) :
    Except QError (List (String × String)) :=
  let base := [("Accept", "application/json")]
  if truthy username && truthy password then
    .ok (base ++ [("username", username.getD ""), ("password", password.getD "")])
  else if truthy token then
    .ok (base ++ [("SEC", token.getD "")])
  else
    .error .ConfigError

/-- A header list carries the basic-auth variant when it binds the
`username` key. -/
def hasBasic (hs : List (String × String)) : Bool :=
  hs.any fun kv => kv.1 == "username"

/-- A header list carries the token variant when it binds the `SEC` key. -/
def hasToken (hs : List (String × String)) : Bool :=
  hs.any fun kv => kv.1 == "SEC"

/-- The ASCII apostrophe character used by the PARAMETERS clause. -/
def squote : String := (Char.ofNat 39).toString

/-- Query composition from `QRadar.search`: starting from the base AQL text,
conditionally append the LIMIT clause, then the START/STOP clause, then the
PARAMETERS PRIORITY clause.  `datetime` arguments are modelled by their
epoch timestamps in milliseconds, with `nowMs` standing for
`datetime.now()`; the code renders the start epoch as a Python float and the
stop epoch as an int, a formatting detail the embedding abstracts by
printing both as numerals.  `limit=0` and an empty priority string are falsy
in Python and produce no clause, mirroring `if limit:` and
`if priority and priority in [...]:`. -/
def compose (aql : String) (limit : Option Nat) (startMs endMs : Option Nat)
    (nowMs : Nat) (priority : Option String) : String :=
  let query := aql
  let query := match limit with
    | some n => if n ≠ 0 then query ++ "\n LIMIT " ++ toString n else query
    | none => query
  let query := match startMs with
    | some s =>
      let endEpoch := match endMs with
        | some e => e
        | none => nowMs
      query ++ "\n START " ++ toString s ++ " STOP " ++ toString endEpoch
    | none => query
  let query := match priority with
    | some p =>
      if !p.isEmpty && (p == "LOW" || p == "NORMAL" || p == "HIGH") then
        query ++ "\n PARAMETERS PRIORITY=" ++ squote ++ p ++ squote
      else query
    | none => query
  query

/-- The text the LIMIT modifier contributes to the query: empty when the
modifier is omitted or falsy. -/
def limitClause : Option Nat → String
  | some n => if n ≠ 0 then "\n LIMIT " ++ toString n else ""
  | none => ""

/-- The text the time-window modifier contributes to the query: empty when
`start_time` is omitted, regardless of `end_time`. -/
def timeClause : Option Nat → Option Nat → Nat → String
  | some s, endMs, nowMs =>
    "\n START " ++ toString s ++ " STOP " ++ toString (endMs.getD nowMs)
  | none, _, _ => ""

/-- The text the priority modifier contributes to the query: empty when the
modifier is omitted, falsy, or not one of LOW/NORMAL/HIGH. -/
def priorityClause : Option String → String
  | some p =>
    if !p.isEmpty && (p == "LOW" || p == "NORMAL" || p == "HIGH") then
      "\n PARAMETERS PRIORITY=" ++ squote ++ p ++ squote
    else ""
  | none => ""

/-- Outcome of the poll wait loop of `QRadar.search`, recording how many
`_get_status` calls (polls) were made. -/
inductive WaitOutcome where
  | completed (polls : Nat)
  | failed (polls : Nat) (status : String)
  | timedOut (polls : Nat)
  deriving Repr, DecidableEq

/-- The poll wait loop of `QRadar.search` under the idealised clock.  The
loop guard `time.time() < timeout` is checked before each poll and each
iteration ends in `time.sleep(5)`, so with
`timeout = search_start + timeoutMin * 60` the i-th status check happens at
time `search_start + 5 * i` and the guard holds iff `i < 12 * timeoutMin`;
`bound` is that `12 * timeoutMin`.  A CANCELED or ERROR status raises
`JobFailed` immediately, COMPLETED breaks out of the loop, any other status
continues, and exhausting the guard reaches the while-else clause, reported
as `timedOut`. -/
def waitGo (statuses : Nat → String) (bound i : Nat) : WaitOutcome :=
  if h : i < bound then
    let st := statuses i
    if st == "CANCELED" || st == "ERROR" then .failed (i + 1) st
    else if st == "COMPLETED" then .completed (i + 1)
    else waitGo statuses bound (i + 1)
  else
    .timedOut i
termination_by bound - i
decreasing_by omega

/-- The observable effects of one `QRadar.search` run after query
composition and submission: number of `_get_status` polls, number of
requests to the results endpoint, number of `_delete` calls, and the
returned value or raised error. -/
structure SearchTrace where
  polls : Nat
  fetches : Nat
  deletes : Nat
  result : Except QError (List Row)

/-- The job lifecycle of `QRadar.search` after submission: run the poll wait
loop, and on a CANCELED/ERROR status raise `JobFailed` with no delete; on
timeout call `_delete` once and raise `JobTimedOut`; on COMPLETED call
`_get_results`, propagating its error before any cleanup, and on success
call `_delete` once iff `cleanup_results` is set, then return the rows. -/
def searchRun (statuses : Nat → String) (responses : Nat → FetchResp)
    (timeoutMin : Nat) (cleanupResults : Bool) : SearchTrace :=
  match waitGo statuses (12 * timeoutMin) 0 with
  | .failed p st => ⟨p, 0, 0, .error (.JobFailed st)⟩
  | .timedOut p => ⟨p, 0, 1, .error .JobTimedOut⟩
  | .completed p =>
    let r := getResults responses 0
    match r.1 with
    | .error e => ⟨p, r.2, 0, .error e⟩
    | .ok rows => ⟨p, r.2, if cleanupResults then 1 else 0, .ok rows⟩

/-- One unfolding of `getResults` on a failing response within the retry
budget: the request at `attempt` and the whole tail of the recursion. -/
theorem getResults_fail_step (responses : Nat → FetchResp) (attempt : Nat)
    (hfail : (responses attempt).status ≠ 200) (hle : attempt ≤ 10) :
    getResults responses attempt =
      ((getResults responses (attempt + 1)).1,
       (getResults responses (attempt + 1)).2 + 1) := by
  rw [getResults]
  simp [hfail, hle]

/-- `getResults` on a 200 response: materialize the body, one request. -/
theorem getResults_done (responses : Nat → FetchResp) (attempt : Nat)
    (hok : (responses attempt).status = 200) :
    getResults responses attempt = (materialize (responses attempt).body, 1) := by
  rw [getResults]
  simp [hok]

/-- `getResults` on a failing response once the retry budget is exhausted
(`attempt > 10`): raise `FetchFailed` after this one request. -/
theorem getResults_over_budget (responses : Nat → FetchResp) (attempt : Nat)
    (hfail : (responses attempt).status ≠ 200) (hgt : 10 < attempt) :
    getResults responses attempt = (.error .FetchFailed, 1) := by
  rw [getResults]
  simp [hfail, Nat.not_le.mpr hgt]

/-- When the first eleven requests fail, the recursion reaches `attempt = 11`
after issuing one request per failed attempt. -/
theorem getResults_fail_from (responses : Nat → FetchResp)
    (hfail : ∀ i, i < 11 → (responses i).status ≠ 200) :
    ∀ k, k ≤ 11 → getResults responses (11 - k) =
      ((getResults responses 11).1, (getResults responses 11).2 + k) := by
  intro k
  induction k with
  | zero => simp
  | succ k ih =>
    intro hk
    have ha : 11 - (k + 1) ≤ 10 := by omega
    have ha2 : 11 - (k + 1) < 11 := by omega
    have hstep := getResults_fail_step responses (11 - (k + 1)) (hfail _ ha2) ha
    have heq : 11 - (k + 1) + 1 = 11 - k := by omega
    rw [heq] at hstep
    rw [hstep, ih (by omega)]
    simp [Nat.add_assoc]

/-- A results endpoint that fails on the first eleven requests and succeeds
on the twelfth, serving the envelope of the specification example. -/
def failEleven : Nat → FetchResp := fun i =>
  if i < 11 then ⟨500, []⟩ else ⟨200, [("events", [[("a", 1)]])]⟩

/-- A wait loop in which every polled status is RUNNING runs the guard down
and lands in the while-else clause after `bound` polls. -/
theorem waitGo_running_all (statuses : Nat → String) (bound : Nat)
    (hall : ∀ j, j < bound → statuses j = "RUNNING") :
    ∀ k i, bound - i ≤ k → i ≤ bound → waitGo statuses bound i = .timedOut bound := by
  intro k
  induction k with
  | zero =>
    intro i hk hi
    have : i = bound := by omega
    subst this
    rw [waitGo]
    simp
  | succ k ih =>
    intro i hk hi
    rw [waitGo]
    by_cases h : i < bound
    · rw [dif_pos h]
      have hst := hall i h
      dsimp only
      rw [hst]
      simp only [String.reduceBEq, Bool.or_false, if_false]
      exact ih (i + 1) (by omega) (by omega)
    · rw [dif_neg h]
      congr 1
      omega

/-- A RUNNING status within the deadline continues the loop. -/
theorem waitGo_step_running (statuses : Nat → String) (bound i : Nat)
    (h : i < bound) (hst : statuses i = "RUNNING") :
    waitGo statuses bound i = waitGo statuses bound (i + 1) := by
  rw [waitGo, dif_pos h]
  dsimp only
  rw [hst]
  simp

/-- A COMPLETED status within the deadline breaks out of the loop. -/
theorem waitGo_step_completed (statuses : Nat → String) (bound i : Nat)
    (h : i < bound) (hst : statuses i = "COMPLETED") :
    waitGo statuses bound i = .completed (i + 1) := by
  rw [waitGo, dif_pos h]
  dsimp only
  rw [hst]
  simp

/-- An ERROR status within the deadline raises immediately. -/
theorem waitGo_step_error (statuses : Nat → String) (bound i : Nat)
    (h : i < bound) (hst : statuses i = "ERROR") :
    waitGo statuses bound i = .failed (i + 1) "ERROR" := by
  rw [waitGo, dif_pos h]
  dsimp only
  rw [hst]
  simp

/-- A CANCELED status within the deadline raises immediately. -/
theorem waitGo_step_canceled (statuses : Nat → String) (bound i : Nat)
    (h : i < bound) (hst : statuses i = "CANCELED") :
    waitGo statuses bound i = .failed (i + 1) "CANCELED" := by
  rw [waitGo, dif_pos h]
  dsimp only
  rw [hst]
  simp

/-- C1, counterexample: against the claim that failure on 11 attempts
(1 initial + 10 retries) raises `FetchFailed` with no further request, a
results endpoint failing on exactly the first 11 requests leads the code to
issue a twelfth request, whose success is returned as the result: the retry
condition `attempt <= 10` with the counter starting at 0 allows 11 retries,
not 10. -/
theorem getResults_c1_counterexample :
    (getResults failEleven 0).2 = 12 ∧
    (getResults failEleven 0).1 = .ok [[("a", 1)]] ∧
    (getResults failEleven 0).1 ≠ .error .FetchFailed := by
  have hfail : ∀ i, i < 11 → (failEleven i).status ≠ 200 := by decide
  have h := getResults_fail_from failEleven hfail 11 (by omega)
  norm_num at h
  rw [getResults_done failEleven 11 rfl] at h
  rw [h]
  refine ⟨rfl, ?_, ?_⟩ <;> simp [failEleven, materialize]

/-- C1, amended: in the fetch phase (`_get_results`), a transient failure
(non-200 response) is retried up to 11 times with a fixed 5-second delay
between attempts: if the results endpoint fails on attempts 1 through 11 and
succeeds on attempt 12, the parsed rows are returned; if it fails on all 12
attempts (1 initial + 11 retries), `FetchFailed` is raised and no further
request is issued. -/
theorem getResults_retry_eleven (responses : Nat → FetchResp)
    (hfail : ∀ i, i < 11 → (responses i).status ≠ 200) :
    ((responses 11).status = 200 →
      getResults responses 0 = (materialize (responses 11).body, 12)) ∧
    ((responses 11).status ≠ 200 →
      getResults responses 0 = (.error .FetchFailed, 12)) := by
  have h := getResults_fail_from responses hfail 11 (by omega)
  norm_num at h
  constructor
  · intro h200
    rw [getResults_done responses 11 h200] at h
    rw [h]
  · intro h200
    rw [getResults_over_budget responses 11 h200 (by omega)] at h
    rw [h]

/-- Witness for C1 at the endpoint `failEleven`: the first 11 requests fail,
the 12th succeeds, and the parsed rows come back after 12 requests. -/
theorem getResults_retry_eleven_witness :
    (∀ i, i < 11 → (failEleven i).status ≠ 200) ∧
    getResults failEleven 0 = (.ok [[("a", 1)]], 12) := by
  refine ⟨by decide, ?_⟩
  have h := (getResults_retry_eleven failEleven (by decide)).1 rfl
  simpa [failEleven, materialize] using h

/-- C2: for every status sequence that never leaves RUNNING before the
deadline (idealised clock: poll i happens 5·i seconds after the wait loop
starts, so `12 * timeoutMin` polls fit before `timeout_minutes` elapse), the
run makes exactly those polls, issues exactly one delete, raises
`JobTimedOut`, and performs no result fetch. -/
theorem searchRun_timeout_one_delete (statuses : Nat → String)
    (responses : Nat → FetchResp) (timeoutMin : Nat) (cleanupResults : Bool)
    (hall : ∀ j, j < 12 * timeoutMin → statuses j = "RUNNING") :
    searchRun statuses responses timeoutMin cleanupResults =
      ⟨12 * timeoutMin, 0, 1, .error .JobTimedOut⟩ := by
  unfold searchRun
  rw [waitGo_running_all statuses (12 * timeoutMin) hall (12 * timeoutMin) 0
      (by omega) (by omega)]

/-- Witness for C2: with every poll reporting RUNNING and a one-minute
deadline, the run polls 12 times, deletes once and raises `JobTimedOut`. -/
theorem searchRun_timeout_one_delete_witness :
    searchRun (fun _ => "RUNNING") (fun _ => ⟨200, []⟩) 1 true =
      ⟨12, 0, 1, .error .JobTimedOut⟩ :=
  searchRun_timeout_one_delete (fun _ => "RUNNING") (fun _ => ⟨200, []⟩) 1 true
    (fun _ _ => rfl)

/-- C3: under the 5-second poll cadence, a status sequence starting RUNNING,
RUNNING, COMPLETED leaves the wait loop normally after exactly 3 polls, and
a sequence starting RUNNING, ERROR (or RUNNING, CANCELED) raises `JobFailed`
after exactly 2 polls with no delete and no fetch on that path. -/
theorem searchRun_poll_transitions (σ τ ρ : Nat → String)
    (responses : Nat → FetchResp) (timeoutMin : Nat) (cleanup : Bool)
    (hT : 1 ≤ timeoutMin)
    (hs0 : σ 0 = "RUNNING") (hs1 : σ 1 = "RUNNING") (hs2 : σ 2 = "COMPLETED")
    (ht0 : τ 0 = "RUNNING") (ht1 : τ 1 = "ERROR")
    (hr0 : ρ 0 = "RUNNING") (hr1 : ρ 1 = "CANCELED") :
    waitGo σ (12 * timeoutMin) 0 = .completed 3 ∧
    searchRun τ responses timeoutMin cleanup =
      ⟨2, 0, 0, .error (.JobFailed "ERROR")⟩ ∧
    searchRun ρ responses timeoutMin cleanup =
      ⟨2, 0, 0, .error (.JobFailed "CANCELED")⟩ := by
  refine ⟨?_, ?_, ?_⟩
  · rw [waitGo_step_running σ _ 0 (by omega) hs0,
        waitGo_step_running σ _ 1 (by omega) hs1,
        waitGo_step_completed σ _ 2 (by omega) hs2]
  · unfold searchRun
    rw [waitGo_step_running τ _ 0 (by omega) ht0,
        waitGo_step_error τ _ 1 (by omega) ht1]
  · unfold searchRun
    rw [waitGo_step_running ρ _ 0 (by omega) hr0,
        waitGo_step_canceled ρ _ 1 (by omega) hr1]

/-- Witness for C3 at concrete status sequences and a one-minute deadline. -/
theorem searchRun_poll_transitions_witness :
    waitGo (fun i => if i < 2 then "RUNNING" else "COMPLETED") 12 0 =
      .completed 3 ∧
    searchRun (fun i => if i = 0 then "RUNNING" else "ERROR")
      (fun _ => ⟨200, []⟩) 1 true = ⟨2, 0, 0, .error (.JobFailed "ERROR")⟩ ∧
    searchRun (fun i => if i = 0 then "RUNNING" else "CANCELED")
      (fun _ => ⟨200, []⟩) 1 true = ⟨2, 0, 0, .error (.JobFailed "CANCELED")⟩ :=
  searchRun_poll_transitions
    (fun i => if i < 2 then "RUNNING" else "COMPLETED")
    (fun i => if i = 0 then "RUNNING" else "ERROR")
    (fun i => if i = 0 then "RUNNING" else "CANCELED")
    (fun _ => ⟨200, []⟩) 1 true (by omega) rfl rfl rfl rfl rfl rfl rfl

/-- C4: the materializer returns the first value of the envelope without
validating that exactly one key exists, and fails with `MalformedResponse`
on the empty envelope: the envelope with first entry `events` bound to the
rows `a=1`, `a=2` (and arbitrary further entries) yields those rows, and the
empty envelope yields the error rather than a silent empty result. -/
theorem materialize_first_value (k : String) (rows : List Row) (rest : Envelope) :
    materialize ((k, rows) :: rest) = .ok rows ∧
    materialize [("events", [[("a", 1)], [("a", 2)]])] =
      .ok [[("a", 1)], [("a", 2)]] ∧
    materialize ([] : Envelope) = .error .MalformedResponse :=
  ⟨rfl, rfl, rfl⟩

/-- C5: for every combination of the optional modifiers, the composed query
is the base text followed by the limit clause, then the time-window clause,
then the priority clause, each empty when its modifier is omitted; in
particular with all modifiers omitted the query equals the base text
unchanged. -/
theorem compose_clause_order (aql : String) (limit startMs endMs : Option Nat)
    (nowMs : Nat) (priority : Option String) :
    compose aql limit startMs endMs nowMs priority =
      aql ++ limitClause limit ++ timeClause startMs endMs nowMs ++
        priorityClause priority ∧
    compose aql none none none nowMs none = aql := by
  constructor
  · unfold compose limitClause timeClause priorityClause
    cases limit <;> cases startMs <;> cases endMs <;> cases priority <;> dsimp only <;>
      (try split_ifs) <;>
      simp [String.append_assoc, String.append_empty]
  · rfl

/-- C6: a priority of LOW, NORMAL or HIGH appends the
PARAMETERS PRIORITY clause; every other priority value is silently ignored,
so with no other modifiers the query equals the unmodified base text. -/
theorem compose_priority_filter (aql : String) (nowMs : Nat) (p : String) :
    compose aql none none none nowMs (some p) =
      if p == "LOW" || p == "NORMAL" || p == "HIGH" then
        aql ++ "\n PARAMETERS PRIORITY=" ++ squote ++ p ++ squote
      else aql := by
  unfold compose
  dsimp only
  by_cases h : (p == "LOW" || p == "NORMAL" || p == "HIGH") = true
  · have hne : p.isEmpty = false := by
      rcases (by simpa using h : (p = "LOW" ∨ p = "NORMAL") ∨ p = "HIGH") with
        (h1 | h1) | h1 <;> subst h1 <;> rfl
    simp [h, hne]
  · simp [Bool.eq_false_iff.mpr h]

/-- C7: a given `start_time` appends exactly one START/STOP clause whose
start is the start epoch in milliseconds and whose stop is the end epoch in
milliseconds when `end_time` is given and the current wall-clock epoch
otherwise; without `start_time` no time-window clause is appended regardless
of `end_time`. -/
theorem compose_time_window (aql : String) (s : Nat) (endMs : Option Nat)
    (nowMs : Nat) :
    (compose aql none (some s) endMs nowMs none =
      aql ++ "\n START " ++ toString s ++ " STOP " ++
        toString (endMs.getD nowMs)) ∧
    compose aql none none endMs nowMs none = aql := by
  constructor
  · unfold compose
    cases endMs <;> rfl
  · unfold compose
    rfl

/-- C8: submission issues exactly one request, succeeds exactly on a 201
response returning the search id of the body, and raises `SubmissionFailed`
on every other status with no retry. -/
theorem startSearch_status_201 (responses : Nat → PostResp) :
    (startSearch responses).2 = 1 ∧
    ((responses 0).status = 201 →
      (startSearch responses).1 = .ok (responses 0).searchId) ∧
    ((responses 0).status ≠ 201 →
      (startSearch responses).1 = .error .SubmissionFailed) := by
  unfold startSearch
  dsimp only
  refine ⟨?_, ?_, ?_⟩
  · split <;> rfl
  · intro h; simp [h]
  · intro h; simp [h]

/-- Witness for C8: a 201 response returns its search id; a 404 response
raises `SubmissionFailed`; each after one request. -/
theorem startSearch_status_201_witness :
    (startSearch (fun _ => ⟨201, some "abc"⟩)).1 = .ok (some "abc") ∧
    (startSearch (fun _ => ⟨404, none⟩)).1 = .error .SubmissionFailed ∧
    (startSearch (fun _ => ⟨404, none⟩)).2 = 1 :=
  ⟨(startSearch_status_201 (fun _ => ⟨201, some "abc"⟩)).2.1 rfl,
   (startSearch_status_201 (fun _ => ⟨404, none⟩)).2.2 (by decide),
   (startSearch_status_201 (fun _ => ⟨404, none⟩)).1⟩

/-- C9: constructing with neither a truthy username/password pair nor a
truthy token raises `ConfigError` (header construction is pure, so this
happens before any network request); with at least one auth variant the
headers are built successfully. -/
theorem mkHeaders_config_error (u p t : Option String) :
    ((truthy u && truthy p) = false → truthy t = false →
      mkHeaders u p t = .error .ConfigError) ∧
    ((truthy u && truthy p) = true ∨ truthy t = true →
      ∃ hs, mkHeaders u p t = .ok hs) := by
  unfold mkHeaders
  dsimp only
  constructor
  · intro h1 h2; simp [h1, h2]
  · intro h
    rcases h with h | h
    · rw [if_pos h]; exact ⟨_, rfl⟩
    · by_cases hb : (truthy u && truthy p) = true
      · rw [if_pos hb]; exact ⟨_, rfl⟩
      · rw [if_neg hb, if_pos h]; exact ⟨_, rfl⟩

/-- Witness for C9: no credentials at all raise `ConfigError`; a token alone
succeeds. -/
theorem mkHeaders_config_error_witness :
    mkHeaders none none none = .error .ConfigError ∧
    ∃ hs, mkHeaders none none (some "tok") = .ok hs :=
  ⟨(mkHeaders_config_error none none none).1 rfl rfl,
   (mkHeaders_config_error none none (some "tok")).2 (Or.inr rfl)⟩

/-- C10: successful construction yields exactly one auth variant in the
headers: a truthy username/password pair sets the basic headers and silently
ignores any token (no error for supplying both), and the SEC token header is
used only when the basic pair is absent or incomplete. -/
theorem mkHeaders_one_auth_variant (u p t : Option String) :
    ((truthy u && truthy p) = true →
      mkHeaders u p t =
        .ok [("Accept", "application/json"),
             ("username", u.getD ""), ("password", p.getD "")]) ∧
    ((truthy u && truthy p) = false → truthy t = true →
      mkHeaders u p t =
        .ok [("Accept", "application/json"), ("SEC", t.getD "")]) ∧
    (∀ hs, mkHeaders u p t = .ok hs →
      (hasBasic hs = true ∧ hasToken hs = false) ∨
      (hasBasic hs = false ∧ hasToken hs = true)) := by
  unfold mkHeaders
  dsimp only
  refine ⟨?_, ?_, ?_⟩
  · intro h; simp [h]
  · intro h1 h2; simp [h1, h2]
  · intro hs hok
    by_cases hb : (truthy u && truthy p) = true
    · simp [hb] at hok
      subst hok
      left; constructor <;> rfl
    · by_cases ht : truthy t = true
      · simp [Bool.eq_false_iff.mpr hb, ht] at hok
        subst hok
        right; constructor <;> rfl
      · simp [Bool.eq_false_iff.mpr hb, Bool.eq_false_iff.mpr ht] at hok

/-- Witness for C10: both variants supplied yields the basic headers with
the token ignored; a token alone yields the SEC header. -/
theorem mkHeaders_one_auth_variant_witness :
    mkHeaders (some "u") (some "pw") (some "tok") =
      .ok [("Accept", "application/json"),
           ("username", "u"), ("password", "pw")] ∧
    mkHeaders none none (some "tok") =
      .ok [("Accept", "application/json"), ("SEC", "tok")] :=
  ⟨(mkHeaders_one_auth_variant (some "u") (some "pw") (some "tok")).1 rfl,
   (mkHeaders_one_auth_variant none none (some "tok")).2.1 rfl rfl⟩

end Huntlib
